import Mathlib

/-!
Verification of the envoy client (src/envoy.c) against its specification.

The C source of the client driver is embedded shallowly: each C function of
envoy.c becomes a Lean function over explicit inputs, with the external
collaborators that live outside the client source (the supervisor transport
declared in lib/envoy.h, the gpg Assuan library of lib/gpg-protocol.h, libc
calls such as access/getpwuid/getline) supplied as oracle data.  The driver
produces a trace of observable effects together with an exit behaviour, so
that control-flow claims (what is attempted, in which order, with which exit
status) become statements about traces.
-/

namespace Envoy

/-- `enum agent` from src/common.h: agent kinds, with `LAST` as the
not-found sentinel (`LAST_AGENT`). `DEFAULT` coincides with the sentinel
value in C but is kept distinct as the request-side default marker. -/
inductive agent where
  | SSH_AGENT
  | GPG_AGENT
  | DEFAULT
  deriving DecidableEq, Repr

/-- Modelled from the spec: `enum agent_status` of lib/envoy.h, which is not
in src/ (src/common.h carries an older three-value variant). The five reply
statuses of spec section 3. -/
inductive agent_status where
  | ENVOY_RUNNING
  | ENVOY_STARTED
  | ENVOY_STOPPED
  | ENVOY_FAILED
  | ENVOY_BADUSER
  deriving DecidableEq, Repr

/-- Modelled from the spec: `struct agent_data_t` of lib/envoy.h (not in
src/; src/common.h has an older layout without `type`). The supervisor
reply record of spec section 3. -/
structure agent_data_t where
  pid : Int
  type : agent
  status : agent_status
  sock : String
  gpg : String
  deriving DecidableEq, Repr

/-- Observable effects of one client invocation, in program order. -/
inductive Effect where
  /-- `setenv(name, value, true)` in the client's own environment. -/
  | setEnv (name value : String)
  /-- `gpg_agent_connection(path)` succeeded. -/
  | gpgConnectOk (path : String)
  /-- `gpg_agent_connection(path)` returned NULL. -/
  | gpgConnectFail (path : String)
  /-- `gpg_update_tty(agent)`. -/
  | gpgUpdateTty
  /-- `gpg_close(agent)`. -/
  | gpgClose
  /-- `gpg_preset_passphrase(agent, fingerprint, -1, password)`. -/
  | gpgPreset (fingerprint : String)
  /-- `warnx(...)` diagnostic on stderr. -/
  | warn (msg : String)
  /-- A password was read from the terminal (`read_password`). -/
  | readPassword
  /-- `kill(pid, sig)`. -/
  | signal (pid : Int) (sig : Int)
  /-- One chunk written to stdout by a `printf` call. -/
  | print (s : String)
  deriving DecidableEq, Repr

/-- How the invocation ends: normal exit, process-image replacement by
`execv`/`execlp`, or a fatal `err`/`errx` diagnostic (non-zero exit). -/
inductive Exitk where
  | exit (code : Nat)
  | exec (prog : String) (argv : List String)
  | fatal (msg : String)
  deriving DecidableEq, Repr

/-- Oracle for the gpg Assuan library (lib/gpg-protocol.h, not in src/).
`connectOk` tells whether `gpg_agent_connection` succeeds, `fingerprints`
is the ordered list produced by `gpg_keyinfo` (KEYINFO --list), and
`presetOk f` tells whether `gpg_preset_passphrase` for fingerprint `f`
returns non-negative. -/
structure GpgWorld where
  connectOk : Bool
  fingerprints : List String
  presetOk : String → Bool

/-- `getline` on the terminal stream: the bytes up to and including the
first newline, the whole remainder when the stream ends without one, and
failure (-1) on an empty stream. -/
def getline (input : List Char) : Option (List Char) :=
  match input with
  | [] => none
  | c :: rest =>
      if c = '\n' then some [c]
      else match getline rest with
        | none => some [c]
        | some line => some (c :: line)

/-- `read_password` (envoy.c lines 54-83), reduced to its data behaviour:
`getline` the terminal stream; fatal (`none`) when it returns -1; otherwise
`(*password)[--nbytes_r] = 0` drops exactly the final byte of the line. -/
def read_password (input : List Char) : Option (List Char) :=
  match getline input with
  | none => none
  | some line => some line.dropLast

/-- Result of the `unlock` function: either a fatal in-function exit
(`err`/`errx`) or a return code handed back to `main`. -/
inductive UnlockResult where
  | fatalErr (msg : String)
  | ret (code : Int)
  deriving DecidableEq, Repr

/-- The fingerprint loop of `unlock` (envoy.c lines 179-188): issue
`PRESET_PASSPHRASE` per fingerprint in order; on a negative result, warn
naming the fingerprint and return 1 at once; after a complete pass,
`gpg_close` and return 0. -/
def unlockLoop (presetOk : String → Bool) : List String → List Effect × UnlockResult
  | [] => ([Effect.gpgClose], UnlockResult.ret 0)
  | f :: rest =>
      if presetOk f then
        let r := unlockLoop presetOk rest
        (Effect.gpgPreset f :: r.1, r.2)
      else
        ([Effect.gpgPreset f, Effect.warn ("failed to unlock key '" ++ f ++ "'")],
         UnlockResult.ret 1)

/-- `unlock` (envoy.c lines 170-189): connect to the gpg-agent named by the
reply's `gpg` field (fatal if the connection fails), read a password from
the terminal when none was given on the command line (fatal if the read
fails), then run the fingerprint loop. -/
def unlock (gpg : GpgWorld) (tty : List Char) (data : agent_data_t)
    (password : Option String) : List Effect × UnlockResult :=
  if gpg.connectOk then
    match password with
    | some _ =>
        let r := unlockLoop gpg.presetOk gpg.fingerprints
        (Effect.gpgConnectOk data.gpg :: r.1, r.2)
    | none =>
        match read_password tty with
        | none =>
            ([Effect.gpgConnectOk data.gpg, Effect.readPassword],
             UnlockResult.fatalErr "failed to read password")
        | some _ =>
            let r := unlockLoop gpg.presetOk gpg.fingerprints
            (Effect.gpgConnectOk data.gpg :: Effect.readPassword :: r.1, r.2)
  else
    ([Effect.gpgConnectFail data.gpg],
     UnlockResult.fatalErr "failed to open connection to gpg-agent")

/-- `get_key_path` (envoy.c lines 105-116): when `access(fragment, F_OK)`
succeeds (the fragment is in the `existing` set of reachable paths) the
fragment is used unchanged; otherwise it is rewritten to
`<home>/.ssh/<fragment>`. -/
def get_key_path (existing : List String) (home fragment : String) : String :=
  if fragment ∈ existing then fragment
  else home ++ "/.ssh/" ++ fragment

/-- `add_keys` (envoy.c lines 118-139): look up the passwd entry of the
caller's real UID (`getpwuid(getuid())`, supplied as the oracle `passwd`
giving `pw_dir`); fatal when the lookup fails; otherwise `execv` the argv
`["/usr/bin/ssh-add", "--", resolved keys...]` with no fork. -/
def add_keys (existing : List String) (passwd : Option String)
    (keys : List String) : Exitk :=
  match passwd with
  | none => Exitk.fatal "failed to lookup passwd entry"
  | some home =>
      Exitk.exec "/usr/bin/ssh-add"
        ("/usr/bin/ssh-add" :: "--" :: keys.map (get_key_path existing home))

/-- `print_sh_env` (envoy.c lines 141-148): the successive chunks written
by its `printf` calls. -/
def print_sh_env (data : agent_data_t) : List String :=
  (if data.type = agent.GPG_AGENT then
     ["export GPG_AGENT_INFO='" ++ data.gpg ++ "'\n"]
   else []) ++
  ["export SSH_AUTH_SOCK='" ++ data.sock ++ "'\n",
   "export SSH_AGENT_PID='" ++ toString data.pid ++ "'\n"]

/-- `print_fish_env` (envoy.c lines 150-157): the successive chunks written
by its `printf` calls. -/
def print_fish_env (data : agent_data_t) : List String :=
  (if data.type = agent.GPG_AGENT then
     ["set -x GPG_AGENT_INFO '" ++ data.gpg ++ "';"]
   else []) ++
  ["set -x SSH_AUTH_SOCK '" ++ data.sock ++ "';",
   "set -x SSH_AGENT_PID '" ++ toString data.pid ++ "';"]

/-- `source_env` (envoy.c lines 159-168): for a gpg-agent reply, open a gpg
connection, send UPDATESTARTUPTTY and close it (the source performs no NULL
check on the connection); then set `SSH_AUTH_SOCK` in the client's own
environment. -/
def source_env (gpg : GpgWorld) (data : agent_data_t) : List Effect :=
  (if data.type = agent.GPG_AGENT then
     [(if gpg.connectOk then Effect.gpgConnectOk data.gpg
       else Effect.gpgConnectFail data.gpg),
      Effect.gpgUpdateTty, Effect.gpgClose]
   else []) ++
  [Effect.setEnv "SSH_AUTH_SOCK" data.sock]

/-- `get_agent` (envoy.c lines 85-103): `envoy_agent` transport failure
(reply oracle `none`) is fatal; a reply with status `ENVOY_FAILED` or
`ENVOY_BADUSER` is fatal with its own distinct message; the three other
statuses pass through. -/
def get_agent (reply : Option agent_data_t) : Except String agent_data_t :=
  match reply with
  | none => Except.error "failed to fetch agent"
  | some d =>
      match d.status with
      | agent_status.ENVOY_FAILED =>
          Except.error "agent failed to start, check envoyd's log"
      | agent_status.ENVOY_BADUSER =>
          Except.error "connection rejected, user is unauthorized to use this agent"
      | _ => Except.ok d

/-- `enum action` from envoy.c lines 37-47. -/
inductive action where
  | FISH_PRINT
  | SH_PRINT
  | NONE
  | FORCE_ADD
  | CLEAR
  | KILL
  | LIST
  | UNLOCK
  | INVALID
  deriving DecidableEq, Repr

/-- The external world of one invocation: the supervisor reply (`none`
models `envoy_agent` returning a negative value), the gpg library oracle,
the terminal stream, the set of paths for which `access(_, F_OK)` succeeds,
and the `pw_dir` of the caller's passwd entry (`none` = lookup failure). -/
structure World where
  reply : Option agent_data_t
  gpg : GpgWorld
  tty : List Char
  existing : List String
  passwd : Option String

/-- The driver of `main` after option parsing (envoy.c lines 277-319):
fetch the agent, short-circuit on `ENVOY_STOPPED`, `source_env` when
`source` is set, shell-print for the print verbs, then dispatch on the
verb. `keys` are the positional arguments `argv[optind..]`. -/
def run_main (w : World) (verb : action) (source : Bool)
    (password : Option String) (keys : List String) : List Effect × Exitk :=
  match get_agent w.reply with
  | Except.error msg => ([], Exitk.fatal msg)
  | Except.ok data =>
      if data.status = agent_status.ENVOY_STOPPED then
        ([], Exitk.exit 0)
      else
        let es := if source then source_env w.gpg data else []
        let ps :=
          if verb = action.SH_PRINT then (print_sh_env data).map Effect.print
          else if verb = action.FISH_PRINT then (print_fish_env data).map Effect.print
          else []
        let pre := es ++ ps
        match verb with
        | action.NONE =>
            if data.status = agent_status.ENVOY_RUNNING ∨
               data.type = agent.GPG_AGENT then
              (pre, Exitk.exit 0)
            else
              (pre, add_keys w.existing w.passwd keys)
        | action.FORCE_ADD =>
            (pre, add_keys w.existing w.passwd keys)
        | action.CLEAR =>
            if data.type = agent.GPG_AGENT then
              (pre ++ [Effect.signal data.pid 1], Exitk.exit 0)
            else
              (pre, Exitk.fatal "only gpg-agent supports this operation")
        | action.KILL =>
            (pre ++ [Effect.signal data.pid 15], Exitk.exit 0)
        | action.LIST =>
            (pre, Exitk.exec "ssh-add" ["ssh-add", "-l"])
        | action.UNLOCK =>
            let r := unlock w.gpg w.tty data password
            (match r.2 with
             | UnlockResult.fatalErr msg => (pre ++ r.1, Exitk.fatal msg)
             | UnlockResult.ret _ => (pre ++ r.1, Exitk.exit 0))
        | _ => (pre, Exitk.exit 0)

/-- One recognised command-line option, as delivered by `getopt_long`
(envoy.c lines 217-274): the short-option character together with its
argument where the option takes one. -/
inductive Flag where
  | help
  | version
  | add
  | clear
  | kill
  | list
  | unlock (pass : Option String)
  | printsh
  | fish
  | agentf (name : String)
  deriving DecidableEq, Repr

/-- Modelled from the spec: `lookup_agent` of lib/envoy.h (not in src/), a
case-sensitive scan of the registry names, returning the `LAST_AGENT`
sentinel (here `DEFAULT`, with which it shares its value) for an unknown
name. -/
def lookup_agent (name : String) : agent :=
  if name = "ssh-agent" then agent.SSH_AGENT
  else if name = "gpg-agent" then agent.GPG_AGENT
  else agent.DEFAULT

/-- The mutable locals of `main`'s option loop (envoy.c lines 211-215). -/
structure ParseState where
  verb : action
  source : Bool
  password : Option String
  type : agent
  deriving DecidableEq, Repr

/-- Initial values of `main`'s locals (envoy.c lines 211-215). -/
def initParseState : ParseState :=
  { verb := action.NONE, source := true, password := none,
    type := agent.DEFAULT }

/-- How the option loop ends: reach the supervisor request with the final
locals, exit early (help/version), or die on an unknown agent name. -/
inductive ParseResult where
  | proceed (st : ParseState)
  | earlyExit (code : Nat)
  | fatalMsg (msg : String)
  deriving DecidableEq, Repr

/-- The `getopt_long` switch of `main` (envoy.c lines 231-275), folded over
the recognised options in command-line order. `clear` and `kill` also clear
`source`; nothing ever sets it back. -/
def parseFlags : List Flag → ParseState → ParseResult
  | [], st => ParseResult.proceed st
  | f :: rest, st =>
      match f with
      | Flag.help => ParseResult.earlyExit 0
      | Flag.version => ParseResult.earlyExit 0
      | Flag.add => parseFlags rest { st with verb := action.FORCE_ADD }
      | Flag.clear =>
          parseFlags rest { st with verb := action.CLEAR, source := false }
      | Flag.kill =>
          parseFlags rest { st with verb := action.KILL, source := false }
      | Flag.list => parseFlags rest { st with verb := action.LIST }
      | Flag.unlock p =>
          parseFlags rest { st with verb := action.UNLOCK, password := p }
      | Flag.printsh => parseFlags rest { st with verb := action.SH_PRINT }
      | Flag.fish => parseFlags rest { st with verb := action.FISH_PRINT }
      | Flag.agentf n =>
          if lookup_agent n = agent.DEFAULT then
            ParseResult.fatalMsg ("unknown agent: " ++ n)
          else parseFlags rest { st with type := lookup_agent n }

/-- The gpg connection event of one effect: `true` for a successful
`gpg_agent_connection`, `false` for `gpg_close`, nothing otherwise. -/
def gpgEventOf : Effect → Option Bool
  | Effect.gpgConnectOk _ => some true
  | Effect.gpgClose => some false
  | _ => none

/-- Project an effect trace onto its gpg connection events. -/
def gpgEvents (t : List Effect) : List Bool :=
  t.filterMap gpgEventOf

/-- A gpg event sequence is balanced when every successful connection is
closed before the next one is opened and before the trace ends. A close
with no connection open (`gpg_close` after a failed connect) closes
nothing and is ignored. -/
def balancedEvents : List Bool → Bool
  | [] => true
  | false :: rest => balancedEvents rest
  | true :: false :: rest => balancedEvents rest
  | true :: true :: _ => false
  | [true] => false

/-- Every gpg-agent connection in the trace is closed before the next one
and before the process ends. -/
def connectionsClosed (t : List Effect) : Bool :=
  balancedEvents (gpgEvents t)

/-! ### Concrete data for instantiations -/

/-- A freshly started ssh-agent reply. -/
def replySshStarted : agent_data_t :=
  { pid := 4321, type := agent.SSH_AGENT, status := agent_status.ENVOY_STARTED,
    sock := "/run/user/1000/ssh-XXXX/agent.4320", gpg := "" }

/-- A freshly started gpg-agent reply. -/
def replyGpgStarted : agent_data_t :=
  { pid := 1234, type := agent.GPG_AGENT, status := agent_status.ENVOY_STARTED,
    sock := "/run/user/1000/gnupg/S.gpg-agent.ssh",
    gpg := "/run/user/1000/gnupg/S.gpg-agent:1234:1" }

/-- A stopped-agent reply. -/
def replyGpgStopped : agent_data_t :=
  { pid := 0, type := agent.GPG_AGENT, status := agent_status.ENVOY_STOPPED,
    sock := "", gpg := "" }

/-- A gpg library oracle where every call succeeds. -/
def gpgAllOk : GpgWorld :=
  { connectOk := true, fingerprints := ["AAAA", "BBBB"],
    presetOk := fun _ => true }

/-- A gpg library oracle where presetting fingerprint "AAAA" fails. -/
def gpgFailA : GpgWorld :=
  { connectOk := true, fingerprints := ["AAAA", "BBBB"],
    presetOk := fun f => f != "AAAA" }

/-- A world whose gpg-agent rejects the preset for "AAAA". -/
def worldPresetFailA : World :=
  { reply := some replyGpgStarted, gpg := gpgFailA, tty := [],
    existing := [], passwd := none }

/-- A world answering with a stopped agent. -/
def worldStopped : World :=
  { reply := some replyGpgStopped, gpg := gpgAllOk, tty := [],
    existing := [], passwd := none }

/-- A world answering with a freshly started ssh-agent. -/
def worldSshStarted : World :=
  { reply := some replySshStarted, gpg := gpgAllOk, tty := [],
    existing := [], passwd := some "/home/alice" }

/-- A world answering with a freshly started gpg-agent, all gpg calls
succeeding. -/
def worldGpgStarted : World :=
  { reply := some replyGpgStarted, gpg := gpgAllOk, tty := [],
    existing := [], passwd := some "/home/alice" }

/-- A gpg library oracle whose connection attempt fails. -/
def gpgConnFail : GpgWorld :=
  { connectOk := false, fingerprints := [], presetOk := fun _ => true }

/-- A world whose gpg-agent connection attempt fails. -/
def worldConnFail : World :=
  { reply := some replyGpgStarted, gpg := gpgConnFail, tty := [],
    existing := [], passwd := none }

/-! ### Helper lemmas -/

theorem unlockLoop_all_ok (ok : String → Bool) (l : List String)
    (h : ∀ f ∈ l, ok f = true) :
    unlockLoop ok l =
      (l.map Effect.gpgPreset ++ [Effect.gpgClose], UnlockResult.ret 0) := by
  induction l with
  | nil => rfl
  | cons f rest ih =>
      have hf : ok f = true := h f (by simp)
      simp [unlockLoop, hf, ih (fun g hg => h g (by simp [hg]))]

theorem unlockLoop_first_fail (ok : String → Bool) (pre post : List String)
    (f : String) (hpre : ∀ g ∈ pre, ok g = true) (hf : ok f = false) :
    unlockLoop ok (pre ++ f :: post) =
      (pre.map Effect.gpgPreset ++
        [Effect.gpgPreset f, Effect.warn ("failed to unlock key '" ++ f ++ "'")],
       UnlockResult.ret 1) := by
  induction pre with
  | nil => simp [unlockLoop, hf]
  | cons g rest ih =>
      have hg : ok g = true := hpre g (by simp)
      simp [unlockLoop, hg, ih (fun x hx => hpre x (by simp [hx]))]

theorem unlockLoop_ret (ok : String → Bool) (l : List String) :
    (unlockLoop ok l).2 = UnlockResult.ret 0 ∨
    (unlockLoop ok l).2 = UnlockResult.ret 1 := by
  induction l with
  | nil => exact Or.inl rfl
  | cons f rest ih =>
      by_cases hf : ok f = true
      · simpa [unlockLoop, hf] using ih
      · simp [unlockLoop, hf]

theorem getline_ne_nil (input : List Char) (h : input ≠ []) :
    ∃ line, getline input = some line ∧ line ≠ [] := by
  cases input with
  | nil => exact absurd rfl h
  | cons c rest =>
      by_cases hc : c = '\n'
      · exact ⟨[c], by simp [getline, hc], by simp⟩
      · cases hr : getline rest with
        | none => exact ⟨[c], by simp [getline, hc, hr], by simp⟩
        | some line => exact ⟨c :: line, by simp [getline, hc, hr], by simp⟩

theorem getline_no_newline (input : List Char) (h : '\n' ∉ input)
    (hne : input ≠ []) : getline input = some input := by
  induction input with
  | nil => exact absurd rfl hne
  | cons c rest ih =>
      have hc : c ≠ '\n' := fun e => h (by simp [e])
      have hr : '\n' ∉ rest := fun m => h (List.mem_cons_of_mem _ m)
      cases rest with
      | nil => simp [getline, hc]
      | cons d tl =>
          have h2 : getline (d :: tl) = some (d :: tl) := ih hr (by simp)
          rw [getline, if_neg hc, h2]

theorem getline_with_newline (input : List Char) (h : '\n' ∈ input) :
    getline input = some (input.takeWhile (fun c => c != '\n') ++ ['\n']) := by
  induction input with
  | nil => simp at h
  | cons c rest ih =>
      by_cases hc : c = '\n'
      · simp [getline, hc]
      · have hr : '\n' ∈ rest := by
          rcases List.mem_cons.mp h with e | m
          · exact absurd e.symm hc
          · exact m
        simp [getline, hc, ih hr]

/-! ### Claims -/

/-- C10: `read_password` removes exactly one trailing byte from the line it
reads from the terminal — the newline in the normal case, the passphrase's
final character when input ends at EOF without a newline; a bare newline
yields the empty passphrase, and EOF with no bytes read is a fatal error. -/
theorem C10_read_password_trailing_byte (input : List Char) :
    (input = [] → read_password input = none) ∧
    (input ≠ [] → ∃ line, getline input = some line ∧ line ≠ [] ∧
       read_password input = some line.dropLast ∧
       line.length = line.dropLast.length + 1) ∧
    ('\n' ∈ input →
       read_password input = some (input.takeWhile (fun c => c != '\n'))) ∧
    ('\n' ∉ input → input ≠ [] →
       read_password input = some input.dropLast) ∧
    (input = ['\n'] → read_password input = some []) := by
  refine ⟨?_, ?_, ?_, ?_, ?_⟩
  · rintro rfl; rfl
  · intro h
    obtain ⟨line, hl, hne⟩ := getline_ne_nil input h
    refine ⟨line, hl, hne, ?_, ?_⟩
    · simp [read_password, hl]
    · have := List.length_dropLast line
      have hpos : 0 < line.length := List.length_pos.mpr hne
      omega
  · intro h
    simp [read_password, getline_with_newline input h]
  · intro h hne
    simp [read_password, getline_no_newline input h hne]
  · rintro rfl; rfl

/-- C10 witness. -/
theorem C10_witness :
    read_password ['a', 'b', '\n'] =
      some (['a', 'b', '\n'].takeWhile (fun c => c != '\n')) ∧
    read_password ['x', 'y'] = some (['x', 'y'].dropLast) ∧
    read_password ['\n'] = some [] ∧
    read_password [] = none :=
  ⟨(C10_read_password_trailing_byte ['a', 'b', '\n']).2.2.1 (by decide),
   (C10_read_password_trailing_byte ['x', 'y']).2.2.2.1 (by decide) (by decide),
   (C10_read_password_trailing_byte ['\n']).2.2.2.2 rfl,
   (C10_read_password_trailing_byte []).1 rfl⟩

/-- C9: the POSIX-shell print emits export lines in the order
GPG_AGENT_INFO (only when type = GpgAgent), SSH_AUTH_SOCK, SSH_AGENT_PID,
each value wrapped in single quotes with no escaping; the fish print emits
the same variables in the same order as semicolon-terminated `set -x`
lines. -/
theorem C9_shell_export_format (d : agent_data_t) :
    (d.type = agent.GPG_AGENT →
       print_sh_env d =
         ["export GPG_AGENT_INFO='" ++ d.gpg ++ "'\n",
          "export SSH_AUTH_SOCK='" ++ d.sock ++ "'\n",
          "export SSH_AGENT_PID='" ++ toString d.pid ++ "'\n"] ∧
       print_fish_env d =
         ["set -x GPG_AGENT_INFO '" ++ d.gpg ++ "';",
          "set -x SSH_AUTH_SOCK '" ++ d.sock ++ "';",
          "set -x SSH_AGENT_PID '" ++ toString d.pid ++ "';"]) ∧
    (d.type ≠ agent.GPG_AGENT →
       print_sh_env d =
         ["export SSH_AUTH_SOCK='" ++ d.sock ++ "'\n",
          "export SSH_AGENT_PID='" ++ toString d.pid ++ "'\n"] ∧
       print_fish_env d =
         ["set -x SSH_AUTH_SOCK '" ++ d.sock ++ "';",
          "set -x SSH_AGENT_PID '" ++ toString d.pid ++ "';"]) := by
  constructor <;> intro h <;>
    exact ⟨by simp [print_sh_env, h], by simp [print_fish_env, h]⟩

/-- C9 witness. -/
theorem C9_witness :
    print_sh_env { pid := 4321, type := agent.GPG_AGENT,
                   status := agent_status.ENVOY_RUNNING,
                   sock := "/run/sock", gpg := "/run/gpg" } =
      ["export GPG_AGENT_INFO='/run/gpg'\n",
       "export SSH_AUTH_SOCK='/run/sock'\n",
       "export SSH_AGENT_PID='4321'\n"] ∧
    print_fish_env { pid := 4321, type := agent.GPG_AGENT,
                     status := agent_status.ENVOY_RUNNING,
                     sock := "/run/sock", gpg := "/run/gpg" } =
      ["set -x GPG_AGENT_INFO '/run/gpg';",
       "set -x SSH_AUTH_SOCK '/run/sock';",
       "set -x SSH_AGENT_PID '4321';"] :=
  (C9_shell_export_format _).1 rfl

/-- C8: a bare key argument that exists as a path is used unchanged,
otherwise it is rewritten to `<pw_dir>/.ssh/<k>` from the passwd entry of
the caller's real UID (fatal if the lookup fails); the exec argv is
`["/usr/bin/ssh-add", "--", resolved keys...]` with no fork. -/
theorem C8_key_path_resolution (existing : List String) (home fragment : String)
    (passwd : Option String) (keys : List String) :
    (fragment ∈ existing → get_key_path existing home fragment = fragment) ∧
    (fragment ∉ existing →
       get_key_path existing home fragment = home ++ "/.ssh/" ++ fragment) ∧
    (passwd = none →
       add_keys existing passwd keys = Exitk.fatal "failed to lookup passwd entry") ∧
    (∀ h, passwd = some h →
       add_keys existing passwd keys =
         Exitk.exec "/usr/bin/ssh-add"
           ("/usr/bin/ssh-add" :: "--" :: keys.map (get_key_path existing h))) := by
  refine ⟨fun h => ?_, fun h => ?_, fun h => ?_, fun hm h => ?_⟩
  · simp [get_key_path, h]
  · simp [get_key_path, h]
  · simp [add_keys, h]
  · simp [add_keys, h]

/-- C8 witness (spec scenario 3). -/
theorem C8_witness :
    add_keys ["id_rsa"] (some "/home/alice") ["id_rsa", "extra_key"] =
      Exitk.exec "/usr/bin/ssh-add"
        ["/usr/bin/ssh-add", "--", "id_rsa", "/home/alice/.ssh/extra_key"] := by
  have h := (C8_key_path_resolution ["id_rsa"] "/home/alice" "id_rsa"
      (some "/home/alice") ["id_rsa", "extra_key"]).2.2.2 "/home/alice" rfl
  simpa [get_key_path] using h

/-- C7: a reply with status Failed or BadUser makes the client abort with a
non-zero exit before any further action, with a distinct diagnostic for
each case; for BadUser the message is "connection rejected, user is
unauthorized to use this agent". -/
theorem C7_failed_baduser_abort (w : World) (verb : action) (source : Bool)
    (pw : Option String) (keys : List String) (d : agent_data_t)
    (hr : w.reply = some d) :
    (d.status = agent_status.ENVOY_FAILED →
       run_main w verb source pw keys =
         ([], Exitk.fatal "agent failed to start, check envoyd's log")) ∧
    (d.status = agent_status.ENVOY_BADUSER →
       run_main w verb source pw keys =
         ([], Exitk.fatal "connection rejected, user is unauthorized to use this agent")) := by
  constructor <;> intro h <;> simp [run_main, get_agent, hr, h]

/-- C7 witness. -/
theorem C7_witness :
    run_main { reply := some { pid := 1, type := agent.SSH_AGENT,
                               status := agent_status.ENVOY_BADUSER,
                               sock := "", gpg := "" },
               gpg := { connectOk := false, fingerprints := [],
                        presetOk := fun _ => true },
               tty := [], existing := [], passwd := none }
        action.NONE true none [] =
      ([], Exitk.fatal "connection rejected, user is unauthorized to use this agent") :=
  (C7_failed_baduser_abort _ action.NONE true none [] _ rfl).2 rfl

/-- C1 counterexample: with fingerprints ["AAAA", "BBBB"] where the preset
for "AAAA" returns ERR, the client never issues PRESET_PASSPHRASE for
"BBBB" (the remaining fingerprint is not attempted) and the process exits
with status 0, not 1. -/
theorem C1_counterexample :
    Effect.gpgPreset "BBBB" ∉
      (run_main worldPresetFailA action.UNLOCK true (some "hunter2") []).1 ∧
    (run_main worldPresetFailA action.UNLOCK true (some "hunter2") []).2 =
      Exitk.exit 0 := by
  constructor
  · decide
  · rfl

/-- C1 (amended): the client issues PRESET_PASSPHRASE for each fingerprint
in order only up to the first failure: when every preset succeeds it closes
the connection and `unlock` returns 0; when a preset returns ERR it warns
naming that fingerprint and `unlock` returns 1 at once, attempting no
remaining fingerprint and not closing the connection; `main` ignores
`unlock`'s return value, so the process exits 0 either way. -/
theorem C1_unlock_stops_at_first_failure
    (ok : String → Bool) (l pre post : List String) (f : String)
    (w : World) (d : agent_data_t) (p : String) (keys : List String) :
    ((∀ g ∈ l, ok g = true) →
       unlockLoop ok l =
         (l.map Effect.gpgPreset ++ [Effect.gpgClose], UnlockResult.ret 0)) ∧
    ((∀ g ∈ pre, ok g = true) → ok f = false →
       unlockLoop ok (pre ++ f :: post) =
         (pre.map Effect.gpgPreset ++
           [Effect.gpgPreset f,
            Effect.warn ("failed to unlock key '" ++ f ++ "'")],
          UnlockResult.ret 1)) ∧
    (w.reply = some d → d.status = agent_status.ENVOY_STARTED →
       w.gpg.connectOk = true →
       (run_main w action.UNLOCK true (some p) keys).2 = Exitk.exit 0) := by
  refine ⟨unlockLoop_all_ok ok l, unlockLoop_first_fail ok pre post f, ?_⟩
  intro hr hs hc
  rcases unlockLoop_ret w.gpg.presetOk w.gpg.fingerprints with h | h <;>
    simp [run_main, get_agent, hr, hs, unlock, hc, h]

/-- C1 witness. -/
theorem C1_witness :
    unlockLoop (fun f => f != "AAAA") ["BBBB", "AAAA", "CCCC"] =
      (["BBBB"].map Effect.gpgPreset ++
        [Effect.gpgPreset "AAAA", Effect.warn "failed to unlock key 'AAAA'"],
       UnlockResult.ret 1) ∧
    unlockLoop (fun _ => true) ["AAAA"] =
      (["AAAA"].map Effect.gpgPreset ++ [Effect.gpgClose], UnlockResult.ret 0) ∧
    (run_main worldPresetFailA action.UNLOCK true (some "hunter2") []).2 =
      Exitk.exit 0 :=
  ⟨(C1_unlock_stops_at_first_failure (fun f => f != "AAAA") []
      ["BBBB"] ["CCCC"] "AAAA" worldPresetFailA replyGpgStarted "hunter2" []).2.1
      (by decide) (by decide),
   (C1_unlock_stops_at_first_failure (fun _ => true) ["AAAA"] [] [] ""
      worldPresetFailA replyGpgStarted "hunter2" []).1 (by decide),
   (C1_unlock_stops_at_first_failure (fun _ => true) [] [] [] ""
      worldPresetFailA replyGpgStarted "hunter2" []).2.2 rfl rfl rfl⟩

/-- C3 counterexample: a reply with status Stopped under verb ShPrint exits
0 with an empty effect trace — no export line is emitted before the exit,
contrary to the claim that the shell-print step still runs. -/
theorem C3_counterexample :
    run_main worldStopped action.SH_PRINT true none [] = ([], Exitk.exit 0) :=
  rfl

/-- C3 (amended): a reply with status Stopped makes the client exit 0
immediately, before `source_env` and before the shell-print step: no effect
at all is produced, for every verb. -/
theorem C3_stopped_short_circuit (w : World) (verb : action) (source : Bool)
    (pw : Option String) (keys : List String) (d : agent_data_t)
    (hr : w.reply = some d) (hs : d.status = agent_status.ENVOY_STOPPED) :
    run_main w verb source pw keys = ([], Exitk.exit 0) := by
  simp [run_main, get_agent, hr, hs]

/-- C3 witness. -/
theorem C3_witness :
    run_main worldStopped action.FISH_PRINT true none [] = ([], Exitk.exit 0) :=
  C3_stopped_short_circuit worldStopped action.FISH_PRINT true none []
    replyGpgStopped rfl rfl

/-- C2 counterexample: under verb Unlock against an ssh-agent reply (type
SshAgent), the client does not fail with a usage diagnostic: it runs the
preset-passphrase flow against the non-gpg reply and exits 0. -/
theorem C2_counterexample :
    Effect.gpgPreset "AAAA" ∈
      (run_main worldSshStarted action.UNLOCK true (some "p") []).1 ∧
    (run_main worldSshStarted action.UNLOCK true (some "p") []).2 =
      Exitk.exit 0 := by
  constructor
  · decide
  · rfl

/-- C2 (amended): under verb Unlock the client performs no check of the
reply's type: regardless of the type it attempts a gpg-agent connection to
the reply's `gpg` field, failing fatally with the system diagnostic
"failed to open connection to gpg-agent" exactly when that connection
fails, and running the preset flow (exiting 0) when it succeeds. -/
theorem C2_unlock_no_type_check (w : World) (d : agent_data_t) (source : Bool)
    (p : String) (keys : List String)
    (hr : w.reply = some d)
    (hs : d.status = agent_status.ENVOY_STARTED ∨
          d.status = agent_status.ENVOY_RUNNING) :
    (w.gpg.connectOk = false →
       run_main w action.UNLOCK source (some p) keys =
         ((if source then source_env w.gpg d else []) ++
            [Effect.gpgConnectFail d.gpg],
          Exitk.fatal "failed to open connection to gpg-agent")) ∧
    (w.gpg.connectOk = true →
       Effect.gpgConnectOk d.gpg ∈
         (run_main w action.UNLOCK source (some p) keys).1 ∧
       (run_main w action.UNLOCK source (some p) keys).2 = Exitk.exit 0) := by
  constructor
  · intro hc
    rcases hs with h | h <;> simp [run_main, get_agent, hr, h, unlock, hc]
  · intro hc
    constructor
    · rcases unlockLoop_ret w.gpg.presetOk w.gpg.fingerprints with h0 | h0 <;>
        rcases hs with h | h <;>
        simp [run_main, get_agent, hr, h, unlock, hc, h0]
    · rcases unlockLoop_ret w.gpg.presetOk w.gpg.fingerprints with h0 | h0 <;>
        rcases hs with h | h <;>
        simp [run_main, get_agent, hr, h, unlock, hc, h0]

/-- C2 witness. -/
theorem C2_witness :
    run_main worldConnFail action.UNLOCK true (some "p") [] =
      ((if true then source_env worldConnFail.gpg replyGpgStarted else []) ++
         [Effect.gpgConnectFail replyGpgStarted.gpg],
       Exitk.fatal "failed to open connection to gpg-agent") ∧
    (Effect.gpgConnectOk replySshStarted.gpg ∈
       (run_main worldSshStarted action.UNLOCK true (some "p") []).1 ∧
     (run_main worldSshStarted action.UNLOCK true (some "p") []).2 =
       Exitk.exit 0) :=
  ⟨(C2_unlock_no_type_check worldConnFail replyGpgStarted true "p" [] rfl
      (Or.inl rfl)).1 rfl,
   (C2_unlock_no_type_check worldSshStarted replySshStarted true "p" [] rfl
      (Or.inl rfl)).2 rfl⟩

/-- C4 counterexample: under verb ShPrint with a freshly Started ssh-agent
reply, the client exits 0 without exec-ing ssh-add, contrary to the claim
that the default continuation also applies to the print verbs. -/
theorem C4_counterexample :
    (run_main worldSshStarted action.SH_PRINT true none []).2 =
      Exitk.exit 0 ∧
    (run_main worldSshStarted action.SH_PRINT true none []).2 ≠
      Exitk.exec "/usr/bin/ssh-add" ["/usr/bin/ssh-add", "--"] := by
  constructor
  · rfl
  · decide

/-- C4 (amended): the default continuation applies to verb None only: if
the reply's status is Running or its type is GpgAgent the client stops,
otherwise it execs `/usr/bin/ssh-add` on the resolved positional keys
(none given means no key arguments). For verbs ShPrint and FishPrint the
client never execs anything: it stops after emitting the export lines. -/
theorem C4_default_continuation_none_only (w : World) (d : agent_data_t)
    (source : Bool) (pw : Option String) (keys : List String) (home : String)
    (hr : w.reply = some d) :
    (d.status = agent_status.ENVOY_STARTED → d.type ≠ agent.GPG_AGENT →
       w.passwd = some home →
       (run_main w action.NONE source pw keys).2 =
         Exitk.exec "/usr/bin/ssh-add"
           ("/usr/bin/ssh-add" :: "--" ::
             keys.map (get_key_path w.existing home))) ∧
    ((d.status = agent_status.ENVOY_RUNNING ∨ d.type = agent.GPG_AGENT) →
       d.status ≠ agent_status.ENVOY_FAILED →
       d.status ≠ agent_status.ENVOY_BADUSER →
       (run_main w action.NONE source pw keys).2 = Exitk.exit 0) ∧
    (∀ prog argv,
       (run_main w action.SH_PRINT source pw keys).2 ≠ Exitk.exec prog argv) ∧
    (∀ prog argv,
       (run_main w action.FISH_PRINT source pw keys).2 ≠ Exitk.exec prog argv) := by
  refine ⟨?_, ?_, ?_, ?_⟩
  · intro hs ht hp
    have hcond : ¬(d.status = agent_status.ENVOY_RUNNING ∨
        d.type = agent.GPG_AGENT) := by
      rw [hs]; simp [ht]
    simp [run_main, get_agent, hr, hs, hcond, ht, add_keys, hp]
  · intro hcond hf hb
    by_cases hstop : d.status = agent_status.ENVOY_STOPPED
    · simp [run_main, get_agent, hr, hstop]
    · cases hst : d.status with
      | ENVOY_RUNNING => simp [run_main, get_agent, hr, hst]
      | ENVOY_STARTED =>
          have ht : d.type = agent.GPG_AGENT := by
            rcases hcond with h | h
            · rw [hst] at h; exact absurd h (by simp)
            · exact h
          simp [run_main, get_agent, hr, hst, ht]
      | ENVOY_STOPPED => exact absurd hst hstop
      | ENVOY_FAILED => exact absurd hst hf
      | ENVOY_BADUSER => exact absurd hst hb
  · intro prog argv
    by_cases hstop : d.status = agent_status.ENVOY_STOPPED
    · simp [run_main, get_agent, hr, hstop]
    · cases hst : d.status <;>
        simp [run_main, get_agent, hr, hst]
  · intro prog argv
    by_cases hstop : d.status = agent_status.ENVOY_STOPPED
    · simp [run_main, get_agent, hr, hstop]
    · cases hst : d.status <;>
        simp [run_main, get_agent, hr, hst]

/-- C4 witness. -/
theorem C4_witness :
    (run_main worldSshStarted action.NONE true none []).2 =
      Exitk.exec "/usr/bin/ssh-add" ["/usr/bin/ssh-add", "--"] ∧
    (run_main worldGpgStarted action.NONE true none []).2 = Exitk.exit 0 ∧
    (run_main worldSshStarted action.SH_PRINT true none []).2 ≠
      Exitk.exec "/usr/bin/ssh-add" ["/usr/bin/ssh-add", "--"] :=
  ⟨(C4_default_continuation_none_only worldSshStarted replySshStarted true
      none [] "/home/alice" rfl).1 rfl (by decide) rfl,
   (C4_default_continuation_none_only worldGpgStarted replyGpgStarted true
      none [] "/home/alice" rfl).2.1 (Or.inr rfl) (by decide) (by decide),
   (C4_default_continuation_none_only worldSshStarted replySshStarted true
      none [] "/home/alice" rfl).2.2.1 "/usr/bin/ssh-add"
      ["/usr/bin/ssh-add", "--"]⟩

theorem parseFlags_source (flags : List Flag) :
    ∀ st st', parseFlags flags st = ParseResult.proceed st' →
      (st'.source = false ↔
        (st.source = false ∨ Flag.clear ∈ flags ∨ Flag.kill ∈ flags)) := by
  induction flags with
  | nil =>
      intro st st' h
      simp only [parseFlags, ParseResult.proceed.injEq] at h
      subst h
      simp
  | cons f rest ih =>
      intro st st' h
      cases f with
      | help => simp [parseFlags] at h
      | version => simp [parseFlags] at h
      | add =>
          simp only [parseFlags] at h
          simpa using ih _ _ h
      | clear =>
          simp only [parseFlags] at h
          have := ih _ _ h
          simp at this
          simp [this]
      | kill =>
          simp only [parseFlags] at h
          have := ih _ _ h
          simp at this
          simp [this]
      | list =>
          simp only [parseFlags] at h
          simpa using ih _ _ h
      | unlock p =>
          simp only [parseFlags] at h
          simpa using ih _ _ h
      | printsh =>
          simp only [parseFlags] at h
          simpa using ih _ _ h
      | fish =>
          simp only [parseFlags] at h
          simpa using ih _ _ h
      | agentf nm =>
          simp only [parseFlags] at h
          by_cases hn : lookup_agent nm = agent.DEFAULT
          · rw [if_pos hn] at h; simp at h
          · rw [if_neg hn] at h
            simpa using ih _ _ h

theorem unlockLoop_no_setEnv (ok : String → Bool) (l : List String)
    (n v : String) : Effect.setEnv n v ∉ (unlockLoop ok l).1 := by
  induction l with
  | nil => simp [unlockLoop]
  | cons f rest ih =>
      cases hf : ok f <;> simp [unlockLoop, hf, ih]

theorem unlock_no_setEnv (g : GpgWorld) (tty : List Char) (d : agent_data_t)
    (pw : Option String) (n v : String) :
    Effect.setEnv n v ∉ (unlock g tty d pw).1 := by
  cases hc : g.connectOk
  · simp [unlock, hc]
  · cases pw with
    | some p => simp [unlock, hc, unlockLoop_no_setEnv]
    | none =>
        cases hrp : read_password tty with
        | none => simp [unlock, hc, hrp]
        | some l => simp [unlock, hc, hrp, unlockLoop_no_setEnv]

/-- C5 counterexample: the command line `--clear --print` parses to the
selected verb ShPrint with `source` (the request's start flag) still false:
`start = false` does not hold exactly when the selected verb is Clear or
Kill. -/
theorem C5_counterexample :
    parseFlags [Flag.clear, Flag.printsh] initParseState =
      ParseResult.proceed { verb := action.SH_PRINT, source := false,
                            password := none, type := agent.DEFAULT } ∧
    action.SH_PRINT ≠ action.CLEAR ∧ action.SH_PRINT ≠ action.KILL := by
  refine ⟨rfl, by decide, by decide⟩

/-- C5 (amended): the supervisor request carries `start = false` exactly
when the command line contains a `--clear` or `--kill` flag — the flag
latches `source` to false and no later flag resets it, so the selected
verb may differ from Clear/Kill; the client's own environment
(`SSH_AUTH_SOCK`) is mutated only when `start = true`. -/
theorem C5_start_flag_latched (flags : List Flag) (st : ParseState)
    (w : World) (verb : action) (pw : Option String) (keys : List String)
    (n v : String) :
    (parseFlags flags initParseState = ParseResult.proceed st →
       (st.source = false ↔ (Flag.clear ∈ flags ∨ Flag.kill ∈ flags))) ∧
    Effect.setEnv n v ∉ (run_main w verb false pw keys).1 := by
  constructor
  · intro h
    have := parseFlags_source flags initParseState st h
    simpa [initParseState] using this
  · rcases hrep : w.reply with _ | d
    · simp [run_main, get_agent, hrep]
    · by_cases hstop : d.status = agent_status.ENVOY_STOPPED
      · simp [run_main, get_agent, hrep, hstop]
      · cases hst : d.status with
        | ENVOY_FAILED => simp [run_main, get_agent, hrep, hst]
        | ENVOY_BADUSER => simp [run_main, get_agent, hrep, hst]
        | ENVOY_STOPPED => exact absurd hst hstop
        | ENVOY_RUNNING =>
            rcases hu : unlock w.gpg w.tty d pw with ⟨es, ur⟩
            have hes : Effect.setEnv n v ∉ es := by
              have := unlock_no_setEnv w.gpg w.tty d pw n v
              rw [hu] at this
              exact this
            cases verb <;> cases ur <;>
              by_cases htp : d.type = agent.GPG_AGENT <;>
              simp [run_main, get_agent, hrep, hst, hu, hes, htp]
        | ENVOY_STARTED =>
            rcases hu : unlock w.gpg w.tty d pw with ⟨es, ur⟩
            have hes : Effect.setEnv n v ∉ es := by
              have := unlock_no_setEnv w.gpg w.tty d pw n v
              rw [hu] at this
              exact this
            cases verb <;> cases ur <;>
              by_cases htp : d.type = agent.GPG_AGENT <;>
              simp [run_main, get_agent, hrep, hst, hu, hes, htp]

/-- C5 witness. -/
theorem C5_witness :
    (({ verb := action.SH_PRINT, source := false, password := none,
        type := agent.DEFAULT } : ParseState).source = false ↔
      (Flag.clear ∈ [Flag.clear, Flag.printsh] ∨
       Flag.kill ∈ [Flag.clear, Flag.printsh])) ∧
    Effect.setEnv "SSH_AUTH_SOCK" "/run/sock" ∉
      (run_main worldGpgStarted action.KILL false none []).1 :=
  ⟨(C5_start_flag_latched [Flag.clear, Flag.printsh]
      { verb := action.SH_PRINT, source := false, password := none,
        type := agent.DEFAULT }
      worldGpgStarted action.KILL none [] "SSH_AUTH_SOCK" "/run/sock").1 rfl,
   (C5_start_flag_latched [Flag.clear, Flag.printsh]
      { verb := action.SH_PRINT, source := false, password := none,
        type := agent.DEFAULT }
      worldGpgStarted action.KILL none [] "SSH_AUTH_SOCK" "/run/sock").2⟩

theorem gpgEvents_prints (ls : List String) :
    gpgEvents (ls.map Effect.print) = [] := by
  induction ls with
  | nil => rfl
  | cons s rest ih => simp [gpgEvents, gpgEventOf]

theorem gpgEvents_presets (l : List String) :
    gpgEvents (l.map Effect.gpgPreset) = [] := by
  induction l with
  | nil => rfl
  | cons s rest ih => simp [gpgEvents, gpgEventOf]

theorem filterMap_eventOf_presets (l : List String) :
    List.filterMap (gpgEventOf ∘ Effect.gpgPreset) l = [] := by
  induction l with
  | nil => rfl
  | cons s rest ih => simp [gpgEventOf]

theorem filterMap_eventOf_prints (ls : List String) :
    List.filterMap (gpgEventOf ∘ Effect.print) ls = [] := by
  induction ls with
  | nil => rfl
  | cons s rest ih => simp [gpgEventOf]

theorem gpgEvents_source_env (g : GpgWorld) (d : agent_data_t) :
    gpgEvents (source_env g d) = [] ∨ gpgEvents (source_env g d) = [false] ∨
    gpgEvents (source_env g d) = [true, false] := by
  by_cases ht : d.type = agent.GPG_AGENT
  · cases hc : g.connectOk
    · exact Or.inr (Or.inl (by simp [source_env, ht, hc, gpgEvents, gpgEventOf]))
    · exact Or.inr (Or.inr (by simp [source_env, ht, hc, gpgEvents, gpgEventOf]))
  · exact Or.inl (by simp [source_env, ht, gpgEvents, gpgEventOf])

theorem balancedEvents_drop (a : List Bool)
    (h : a = [] ∨ a = [false] ∨ a = [true, false]) (rest : List Bool) :
    balancedEvents (a ++ rest) = balancedEvents rest := by
  rcases h with rfl | rfl | rfl <;> rfl

/-- C6 counterexample: in the unlock flow against a started gpg-agent,
when the preset for the first fingerprint fails, the gpg connection opened
by `unlock` is never closed — the trace's connection events are not
balanced, so a connection outlives every close on this error path. -/
theorem C6_counterexample :
    connectionsClosed
      (run_main worldPresetFailA action.UNLOCK true (some "x") []).1 = false := by
  decide

/-- C6 (amended): every gpg-agent connection the client opens is closed
before the client exits, execs, or opens the next connection, except on
two error paths inside `unlock`, where the connection just opened is
released only by process exit: the per-key failure path (a preset returns
ERR and the function returns 1 without `gpg_close`), and the
prompted-password path when the terminal read fails fatally. On every
other path — whenever every preset succeeds and, if the passphrase is
prompted for, the terminal read succeeds — the trace's connection events
are balanced. -/
theorem C6_connections_closed_outside_unlock_error_paths (w : World)
    (verb : action) (source : Bool) (pw : Option String)
    (keys : List String) (d : agent_data_t)
    (hok : ∀ f ∈ w.gpg.fingerprints, w.gpg.presetOk f = true) :
    ((pw = none → read_password w.tty ≠ none) →
       connectionsClosed (run_main w verb source pw keys).1 = true) ∧
    (w.reply = some d →
       (d.status = agent_status.ENVOY_STARTED ∨
        d.status = agent_status.ENVOY_RUNNING) →
       w.gpg.connectOk = true → read_password w.tty = none →
       connectionsClosed (run_main w action.UNLOCK source none keys).1 = false ∧
       (run_main w action.UNLOCK source none keys).2 =
         Exitk.fatal "failed to read password") := by
  constructor
  · intro hread
    rcases hrep : w.reply with _ | e
    · simp [run_main, get_agent, hrep, connectionsClosed, gpgEvents,
        balancedEvents]
    · by_cases hstop : e.status = agent_status.ENVOY_STOPPED
      · simp [run_main, get_agent, hrep, hstop, connectionsClosed, gpgEvents,
          balancedEvents]
      · cases hst : e.status with
        | ENVOY_FAILED =>
            simp [run_main, get_agent, hrep, hst, connectionsClosed,
              gpgEvents, balancedEvents]
        | ENVOY_BADUSER =>
            simp [run_main, get_agent, hrep, hst, connectionsClosed,
              gpgEvents, balancedEvents]
        | ENVOY_STOPPED => exact absurd hst hstop
        | ENVOY_RUNNING =>
            rcases hpw : pw with _ | p
            · rcases hrp : read_password w.tty with _ | l
              · exact absurd hrp (hread hpw)
              · cases verb <;>
                  by_cases htp : e.type = agent.GPG_AGENT <;>
                  cases hso : source <;>
                  cases hc : w.gpg.connectOk <;>
                  simp [run_main, get_agent, hrep, hst, htp, hso, hc, hrp,
                    connectionsClosed, gpgEvents, gpgEventOf, source_env,
                    unlock, unlockLoop_all_ok w.gpg.presetOk
                      w.gpg.fingerprints hok,
                    balancedEvents, print_sh_env, print_fish_env, add_keys,
                    gpgEvents_prints, gpgEvents_presets,
                    filterMap_eventOf_presets, filterMap_eventOf_prints]
            · cases verb <;>
                by_cases htp : e.type = agent.GPG_AGENT <;>
                cases hso : source <;>
                cases hc : w.gpg.connectOk <;>
                simp [run_main, get_agent, hrep, hst, htp, hso, hc,
                  connectionsClosed, gpgEvents, gpgEventOf, source_env,
                  unlock, unlockLoop_all_ok w.gpg.presetOk
                    w.gpg.fingerprints hok,
                  balancedEvents, print_sh_env, print_fish_env, add_keys,
                  gpgEvents_prints, gpgEvents_presets,
                  filterMap_eventOf_presets, filterMap_eventOf_prints]
        | ENVOY_STARTED =>
            rcases hpw : pw with _ | p
            · rcases hrp : read_password w.tty with _ | l
              · exact absurd hrp (hread hpw)
              · cases verb <;>
                  by_cases htp : e.type = agent.GPG_AGENT <;>
                  cases hso : source <;>
                  cases hc : w.gpg.connectOk <;>
                  simp [run_main, get_agent, hrep, hst, htp, hso, hc, hrp,
                    connectionsClosed, gpgEvents, gpgEventOf, source_env,
                    unlock, unlockLoop_all_ok w.gpg.presetOk
                      w.gpg.fingerprints hok,
                    balancedEvents, print_sh_env, print_fish_env, add_keys,
                    gpgEvents_prints, gpgEvents_presets,
                    filterMap_eventOf_presets, filterMap_eventOf_prints]
            · cases verb <;>
                by_cases htp : e.type = agent.GPG_AGENT <;>
                cases hso : source <;>
                cases hc : w.gpg.connectOk <;>
                simp [run_main, get_agent, hrep, hst, htp, hso, hc,
                  connectionsClosed, gpgEvents, gpgEventOf, source_env,
                  unlock, unlockLoop_all_ok w.gpg.presetOk
                    w.gpg.fingerprints hok,
                  balancedEvents, print_sh_env, print_fish_env, add_keys,
                  gpgEvents_prints, gpgEvents_presets,
                  filterMap_eventOf_presets, filterMap_eventOf_prints]
  · intro hr hs hc hrp
    constructor
    · rcases hs with h | h <;>
        by_cases htp : d.type = agent.GPG_AGENT <;>
        cases hso : source <;>
        simp [run_main, get_agent, hr, h, htp, hso, unlock, hc, hrp,
          connectionsClosed, gpgEvents, gpgEventOf, source_env,
          balancedEvents, gpgEvents_prints, gpgEvents_presets,
          filterMap_eventOf_presets, filterMap_eventOf_prints]
    · rcases hs with h | h <;>
        cases hso : source <;>
        simp [run_main, get_agent, hr, h, hso, unlock, hc, hrp]

/-- C6 witness. -/
theorem C6_witness :
    connectionsClosed
      (run_main worldGpgStarted action.UNLOCK true (some "p") []).1 = true ∧
    (connectionsClosed
       (run_main worldGpgStarted action.UNLOCK true none []).1 = false ∧
     (run_main worldGpgStarted action.UNLOCK true none []).2 =
       Exitk.fatal "failed to read password") :=
  ⟨(C6_connections_closed_outside_unlock_error_paths worldGpgStarted
      action.UNLOCK true (some "p") [] replyGpgStarted (by decide)).1
      (by simp),
   (C6_connections_closed_outside_unlock_error_paths worldGpgStarted
      action.UNLOCK true none [] replyGpgStarted (by decide)).2
      rfl (Or.inl rfl) rfl rfl⟩

end Envoy
